import Mathlib

/-!
Shallow embedding of the type-resolution and cast-legality analysis engine
specified for the TastyFresh fixture corpus.  The repository itself contains
only C++ fixture programs (inputs for the engine); the engine's components
(TypeRegistry, ExpressionTypeResolver, TemplateInstantiator, CastClassifier,
OwnershipTracker, AnalysisReport) are modelled from the specification, and the
fixture under examples/type_casting is embedded as a concrete input program.
-/

/-- Modelled from the spec: the arithmetic (primitive numeric) types the
fixtures exercise, with their integer/floating kinds. -/
inductive ArithTy
  | boolTy
  | charTy
  | shortTy
  | intTy
  | longTy
  | floatTy
  | doubleTy
deriving DecidableEq, Repr, Fintype

/-- Modelled from the spec: significant bits of each arithmetic type
("precision"); floating-point types count mantissa bits. -/
def precision : ArithTy → Nat
  | .boolTy => 1
  | .charTy => 8
  | .shortTy => 16
  | .intTy => 32
  | .longTy => 64
  | .floatTy => 24
  | .doubleTy => 53

/-- Whether an arithmetic type is a floating-point type. -/
def isFloating : ArithTy → Bool
  | .floatTy => true
  | .doubleTy => true
  | _ => false

/-- Modelled from the spec: Type identity — primitive (arithmetic), class,
pointer, reference, the generic opaque pointer, or a template instantiation
carrying its template name and ordered argument list. -/
inductive Ty
  | arith (a : ArithTy)
  | cls (name : String)
  | ptr (t : Ty)
  | ref (t : Ty)
  | voidPtr
  | tmpl (name : String) (args : List Ty)
deriving Repr

mutual

/-- Decidable equality on `Ty` (hand-written: the nested `List Ty` argument
defeats the automatic derivation). -/
def tyDecEq : (a b : Ty) → Decidable (a = b)
  | .arith a, .arith b =>
    match decEq a b with
    | isTrue h => isTrue (by rw [h])
    | isFalse h => isFalse (by simp [h])
  | .cls a, .cls b =>
    match String.decEq a b with
    | isTrue h => isTrue (by rw [h])
    | isFalse h => isFalse (by simp [h])
  | .ptr a, .ptr b =>
    match tyDecEq a b with
    | isTrue h => isTrue (by rw [h])
    | isFalse h => isFalse (by simp [h])
  | .ref a, .ref b =>
    match tyDecEq a b with
    | isTrue h => isTrue (by rw [h])
    | isFalse h => isFalse (by simp [h])
  | .voidPtr, .voidPtr => isTrue rfl
  | .tmpl n as, .tmpl m bs =>
    match String.decEq n m, tyListDecEq as bs with
    | isTrue h1, isTrue h2 => isTrue (by rw [h1, h2])
    | isFalse h1, _ => isFalse (by simp [h1])
    | _, isFalse h2 => isFalse (by simp [h2])
  | .arith _, .cls _ => isFalse nofun
  | .arith _, .ptr _ => isFalse nofun
  | .arith _, .ref _ => isFalse nofun
  | .arith _, .voidPtr => isFalse nofun
  | .arith _, .tmpl _ _ => isFalse nofun
  | .cls _, .arith _ => isFalse nofun
  | .cls _, .ptr _ => isFalse nofun
  | .cls _, .ref _ => isFalse nofun
  | .cls _, .voidPtr => isFalse nofun
  | .cls _, .tmpl _ _ => isFalse nofun
  | .ptr _, .arith _ => isFalse nofun
  | .ptr _, .cls _ => isFalse nofun
  | .ptr _, .ref _ => isFalse nofun
  | .ptr _, .voidPtr => isFalse nofun
  | .ptr _, .tmpl _ _ => isFalse nofun
  | .ref _, .arith _ => isFalse nofun
  | .ref _, .cls _ => isFalse nofun
  | .ref _, .ptr _ => isFalse nofun
  | .ref _, .voidPtr => isFalse nofun
  | .ref _, .tmpl _ _ => isFalse nofun
  | .voidPtr, .arith _ => isFalse nofun
  | .voidPtr, .cls _ => isFalse nofun
  | .voidPtr, .ptr _ => isFalse nofun
  | .voidPtr, .ref _ => isFalse nofun
  | .voidPtr, .tmpl _ _ => isFalse nofun
  | .tmpl _ _, .arith _ => isFalse nofun
  | .tmpl _ _, .cls _ => isFalse nofun
  | .tmpl _ _, .ptr _ => isFalse nofun
  | .tmpl _ _, .ref _ => isFalse nofun
  | .tmpl _ _, .voidPtr => isFalse nofun

/-- Decidable equality on lists of `Ty`, by mutual recursion with `tyDecEq`. -/
def tyListDecEq : (as bs : List Ty) → Decidable (as = bs)
  | [], [] => isTrue rfl
  | [], _ :: _ => isFalse nofun
  | _ :: _, [] => isFalse nofun
  | a :: as, b :: bs =>
    match tyDecEq a b, tyListDecEq as bs with
    | isTrue h1, isTrue h2 => isTrue (by rw [h1, h2])
    | isFalse h1, _ => isFalse (by simp [h1])
    | _, isFalse h2 => isFalse (by simp [h2])

end

instance : DecidableEq Ty := tyDecEq

/-- A class declaration for the registry: name, ordered direct base names, and
the polymorphism capability flag ("has dynamically-dispatched member"). -/
structure ClassDecl where
  name : String
  bases : List String
  polymorphic : Bool
deriving DecidableEq, Repr

/-- Modelled from the spec: the TypeRegistry — declared class types and their
hierarchy, frozen before analysis begins. -/
structure Registry where
  classes : List ClassDecl
deriving DecidableEq, Repr

/-- Modelled from the spec: the unified error taxonomy (fatal/structural,
recoverable per-node, and ownership violations).  `UnsupportedCastError` covers
cast shapes the specification leaves illegal without naming a reason. -/
inductive AnalysisError
  | DuplicateTypeError
  | CyclicHierarchyError
  | UnknownTypeError
  | UnknownIdentifierError
  | UnknownMemberError
  | AmbiguousOverloadError
  | UnrelatedTypesError
  | NotPolymorphicError
  | IndexOutOfRangeError
  | UseAfterMoveError
  | NonCopyableError
  | DoubleReleaseError
  | UnsupportedCastError
  | TemplateArityError
deriving DecidableEq, Repr

/-- Non-fatal notes attached to a legal cast classification. -/
inductive Note
  | narrowing
  | bitReuse
  | ambiguity
  | runtimeDependent
deriving DecidableEq, Repr

/-- Outcome of classifying one cast: legal with notes, or illegal with a
reason. -/
inductive CastOutcome
  | legal (notes : List Note)
  | illegal (reason : AnalysisError)
deriving DecidableEq, Repr

/-- The requested conversion mechanism of a CastOperation. -/
inductive Mechanism
  | implicitNumeric
  | qualifiedHierarchy
  | runtimeCheckedHierarchy
  | bitReinterpretation
  | legacyAmbiguous
deriving DecidableEq, Repr

/-- Direct base names of a registered class (empty for unknown names). -/
def directBases (reg : Registry) (n : String) : List String :=
  match reg.classes.find? (fun c => c.name == n) with
  | some c => c.bases
  | none => []

/-- All names reachable from `n` through base edges within `fuel` steps. -/
def baseClosure (reg : Registry) : Nat → String → List String
  | 0, _ => []
  | fuel + 1, n => (directBases reg n).flatMap (fun b => b :: baseClosure reg fuel b)

/-- Modelled from the spec: `isBaseOf(a, b)` — `a` appears in `b`'s transitive
base chain, computed by graph reachability. -/
def isBaseOf (reg : Registry) (a b : String) : Bool :=
  (baseClosure reg reg.classes.length b).contains a

/-- A registry has a cycle when some registered class reaches itself through
base edges. -/
def hasCycle (reg : Registry) : Bool :=
  reg.classes.any (fun c => (baseClosure reg reg.classes.length c.name).contains c.name)

/-- Whether `n` names a registered class. -/
def registeredClass (reg : Registry) (n : String) : Bool :=
  reg.classes.any (fun c => c.name == n)

/-- The polymorphism flag of a registered class (false for unknown names). -/
def isPolymorphic (reg : Registry) (n : String) : Bool :=
  match reg.classes.find? (fun c => c.name == n) with
  | some c => c.polymorphic
  | none => false

/-- Registration pass: add declarations one at a time, failing
`DuplicateTypeError` when a name repeats. -/
def registerAll : List ClassDecl → List ClassDecl → Except AnalysisError (List ClassDecl)
  | acc, [] => .ok acc
  | acc, d :: rest =>
    if acc.any (fun c => c.name == d.name) then .error .DuplicateTypeError
    else registerAll (acc ++ [d]) rest

/-- Modelled from the spec: construct-then-freeze registry building — register
every declaration, then run cycle detection once at freeze time, failing
`CyclicHierarchyError` so that no hierarchy query can ever run on a cyclic
registry. -/
def buildRegistry (ds : List ClassDecl) : Except AnalysisError Registry :=
  match registerAll [] ds with
  | .error e => .error e
  | .ok cs => if hasCycle ⟨cs⟩ then .error .CyclicHierarchyError else .ok ⟨cs⟩

/-- An `isBaseOf` query routed through a registry construction result: a failed
construction propagates its error to every query. -/
def queryIsBaseOf (r : Except AnalysisError Registry) (a b : String) : Except AnalysisError Bool :=
  match r with
  | .error e => .error e
  | .ok reg => .ok (isBaseOf reg a b)

/-- The arithmetic type carried by a `Ty`, when it is one. -/
def isArith : Ty → Option ArithTy
  | .arith a => some a
  | _ => none

/-- The class name a pointer-to-class type points at. -/
def pointeeClass : Ty → Option String
  | .ptr (.cls n) => some n
  | _ => none

/-- The class name a pointer- or reference-to-class type refers to. -/
def referencedClass : Ty → Option String
  | .ptr (.cls n) => some n
  | .ref (.cls n) => some n
  | _ => none

/-- Pointer-likeness: plain pointers and the opaque pointer type. -/
def isPointerLike : Ty → Bool
  | .ptr _ => true
  | .voidPtr => true
  | _ => false

/-- Modelled from the spec: a numeric conversion narrows when the target has
fewer significant bits, or the target is an integer type while the source is
floating-point. -/
def narrows (s t : ArithTy) : Bool :=
  decide (precision t < precision s) || (isFloating s && !isFloating t)

/-- Modelled from the spec: implicit-numeric classification — legal between any
two arithmetic types unconditionally, with a narrowing note when the conversion
narrows; shapes outside the arithmetic types are illegal. -/
def classifyImplicitNumeric (s t : Ty) : CastOutcome :=
  match isArith s, isArith t with
  | some sa, some ta => .legal (if narrows sa ta then [Note.narrowing] else [])
  | _, _ => .illegal .UnsupportedCastError

/-- Modelled from the spec: qualified-hierarchy classification — legal between
arithmetic types (inheriting the numeric narrowing note), between
pointer-to-class types related through the registered hierarchy in either
direction (no runtime verification, so no note), and between any pointer type
and the opaque pointer; unrelated class pointers fail `UnrelatedTypesError`. -/
def classifyQualifiedHierarchy (reg : Registry) (s t : Ty) : CastOutcome :=
  match isArith s, isArith t with
  | some sa, some ta => .legal (if narrows sa ta then [Note.narrowing] else [])
  | _, _ =>
    match pointeeClass s, pointeeClass t with
    | some cs, some ct =>
      if isBaseOf reg cs ct || isBaseOf reg ct cs then .legal []
      else .illegal .UnrelatedTypesError
    | _, _ =>
      if (isPointerLike s && (t == Ty.voidPtr)) || ((s == Ty.voidPtr) && isPointerLike t)
      then .legal []
      else .illegal .UnsupportedCastError

/-- Modelled from the spec: runtime-checked-hierarchy classification — only
between pointer/reference types whose referenced types are class types; related
pairs additionally require the source class be polymorphic (else
`NotPolymorphicError`), and a legal outcome records that actual success is a
runtime property; unrelated class types fail `UnrelatedTypesError`. -/
def classifyRuntimeChecked (reg : Registry) (s t : Ty) : CastOutcome :=
  match referencedClass s, referencedClass t with
  | some cs, some ct =>
    if isBaseOf reg cs ct || isBaseOf reg ct cs then
      if isPolymorphic reg cs then .legal [Note.runtimeDependent]
      else .illegal .NotPolymorphicError
    else .illegal .UnrelatedTypesError
  | _, _ => .illegal .UnsupportedCastError

/-- Whether a type's storage representation is pointer- or register-sized. -/
def registerSized : Ty → Bool
  | .arith _ => true
  | .ptr _ => true
  | .ref _ => true
  | .voidPtr => true
  | .cls _ => false
  | .tmpl _ _ => false

/-- Modelled from the spec: bit-reinterpretation classification — legal between
any two pointer- or register-sized types, always flagged with a note since the
bit pattern is reused verbatim. -/
def classifyBitReinterpretation (s t : Ty) : CastOutcome :=
  if registerSized s && registerSized t then .legal [Note.bitReuse]
  else .illegal .UnsupportedCastError

/-- Modelled from the spec: legacy-ambiguous classification — first attempt the
qualified-hierarchy mechanism; on failure fall back to bit-reinterpretation
with an added ambiguity note. -/
def classifyLegacyAmbiguous (reg : Registry) (s t : Ty) : CastOutcome :=
  match classifyQualifiedHierarchy reg s t with
  | .legal ns => .legal ns
  | .illegal _ =>
    match classifyBitReinterpretation s t with
    | .legal ns => .legal (ns ++ [Note.ambiguity])
    | .illegal e => .illegal e

/-- Modelled from the spec: the CastClassifier entry point — a pure function of
source type, target type, mechanism and registry. -/
def classify (reg : Registry) (s t : Ty) : Mechanism → CastOutcome
  | .implicitNumeric => classifyImplicitNumeric s t
  | .qualifiedHierarchy => classifyQualifiedHierarchy reg s t
  | .runtimeCheckedHierarchy => classifyRuntimeChecked reg s t
  | .bitReinterpretation => classifyBitReinterpretation s t
  | .legacyAmbiguous => classifyLegacyAmbiguous reg s t

/-- A classification outcome is legal. -/
def isLegal : CastOutcome → Bool
  | .legal _ => true
  | .illegal _ => false

/-- Whether a legal outcome carries a given note. -/
def hasNote (o : CastOutcome) (n : Note) : Bool :=
  match o with
  | .legal ns => ns.contains n
  | .illegal _ => false

/-- Append the legacy ambiguity note to a legal outcome. -/
def addAmbiguity : CastOutcome → CastOutcome
  | .legal ns => .legal (ns ++ [Note.ambiguity])
  | .illegal e => .illegal e

/-- Modelled from the spec: the TemplateInstantiator's registration table,
keyed by template name and ordered argument list. -/
structure TemplateInstantiator where
  table : List (String × List Ty)
deriving DecidableEq, Repr

/-- The template names the instantiator resolves. -/
def knownTemplate (nm : String) : Bool :=
  nm == "sequence" || nm == "ordered-mapping" || nm == "fixed-arity-tuple"

/-- Modelled from the spec: argument-count validation — `sequence` takes 1
argument, `ordered-mapping` 2; `fixed-arity-tuple` fixes its arity at
instantiation, so any count is accepted. -/
def arityOk (nm : String) (n : Nat) : Bool :=
  if nm == "sequence" then n == 1
  else if nm == "ordered-mapping" then n == 2
  else true

/-- Modelled from the spec: template instantiation — validate the argument
count, then register the instantiation as a distinct Type per unique argument
combination, memoized by argument list: an already-registered combination
returns the existing Type and leaves the table unchanged. -/
def instantiate (inst : TemplateInstantiator) (nm : String) (args : List Ty) :
    Except AnalysisError (Ty × TemplateInstantiator) :=
  if knownTemplate nm = false then .error .UnknownTypeError
  else if arityOk nm args.length = false then .error .TemplateArityError
  else if (nm, args) ∈ inst.table then .ok (Ty.tmpl nm args, inst)
  else .ok (Ty.tmpl nm args, ⟨inst.table ++ [(nm, args)]⟩)

/-- Modelled from the spec: resolution-time positional access against a
fixed-arity tuple type — the index is validated against the tuple's fixed
arity, failing `IndexOutOfRangeError` when out of bounds. -/
def resolvePositionalAccess (t : Ty) (i : Nat) : Except AnalysisError Ty :=
  match t with
  | .tmpl nm args =>
    if nm == "fixed-arity-tuple" then
      match args[i]? with
      | some a => .ok a
      | none => .error .IndexOutOfRangeError
    else .error .UnknownMemberError
  | _ => .error .UnknownMemberError

/-- The scope of declared variables visible to the resolver. -/
abbrev Scope := List (String × Ty)

/-- Look a variable up in the current scope. -/
def lookupVar (sc : Scope) (n : String) : Option Ty :=
  (sc.find? (fun p => p.1 == n)).map (fun p => p.2)

/-- The expression forms of the type_casting fixture: literals, variable
references, explicit casts, and allocation expressions. -/
inductive Expr
  | litInt (v : Int)
  | litFloat
  | litDouble
  | var (n : String)
  | castE (target : Ty) (mech : Mechanism) (e : Expr)
  | newE (t : Ty)
deriving Repr

/-- A finding accumulated into the AnalysisReport: a cast classification or an
implicit conversion classification from an initialization. -/
inductive Finding
  | castClass (mech : Mechanism) (outcome : CastOutcome)
  | implicitConv (outcome : CastOutcome)
deriving DecidableEq, Repr

/-- Modelled from the spec: the ExpressionTypeResolver — bottom-up type
inference; a cast node delegates to the CastClassifier and resolves to the
requested target type regardless of the classification outcome, recording the
classification in the report; an unknown identifier is a fatal error. -/
def resolveExpr (reg : Registry) (sc : Scope) : Expr → Except AnalysisError (Ty × List Finding)
  | .litInt _ => .ok (.arith .intTy, [])
  | .litFloat => .ok (.arith .floatTy, [])
  | .litDouble => .ok (.arith .doubleTy, [])
  | .var n =>
    match lookupVar sc n with
    | some t => .ok (t, [])
    | none => .error .UnknownIdentifierError
  | .castE target mech e =>
    match resolveExpr reg sc e with
    | .ok (s, fs) => .ok (target, fs ++ [Finding.castClass mech (classify reg s target mech)])
    | .error err => .error err
  | .newE t => .ok (.ptr t, [])

/-- A declaration statement: name, declared type, initializer expression. -/
inductive Stmt
  | decl (name : String) (ty : Ty) (init : Expr)
deriving Repr

/-- Initializing a variable of a different type than its initializer performs
an implicit numeric conversion, classified and recorded. -/
def implicitInitFindings (declared initTy : Ty) : List Finding :=
  if declared == initTy then []
  else [Finding.implicitConv (classifyImplicitNumeric initTy declared)]

/-- Analyze a statement list in order: resolve each initializer in the current
scope, record its findings and any implicit initialization conversion, then
extend the scope with the declared variable; fatal errors abort. -/
def analyzeStmtList (reg : Registry) : List Stmt → Scope → Except AnalysisError (List Finding)
  | [], _ => .ok []
  | .decl n ty init :: rest, sc =>
    match resolveExpr reg sc init with
    | .error e => .error e
    | .ok (s, fs) =>
      match analyzeStmtList reg rest ((n, ty) :: sc) with
      | .error e => .error e
      | .ok fs2 => .ok (fs ++ implicitInitFindings ty s ++ fs2)

/-- A classification outcome that keeps the report from being clean: illegal,
or legal with at least one note. -/
def outcomeNonClean : CastOutcome → Bool
  | .legal ns => !ns.isEmpty
  | .illegal _ => true

/-- Whether a finding keeps the report from being clean. -/
def findingNonClean : Finding → Bool
  | .castClass _ o => outcomeNonClean o
  | .implicitConv o => outcomeNonClean o

/-- Modelled from the spec: the invocation exit code — 2 on a fatal structural
error, 1 when analysis completed with non-fatal notes or violations (2 under
`--strict`), 0 when clean. -/
def exitCode (strict : Bool) : Except AnalysisError (List Finding) → Nat
  | .error _ => 2
  | .ok fs => if fs.any findingNonClean then (if strict then 2 else 1) else 0

/-- Whether an analysis run aborted with a fatal structural error. -/
def isFatal : Except AnalysisError (List Finding) → Bool
  | .error _ => true
  | .ok _ => false

/-- Whether an outcome carries a narrowing note. -/
def outcomeHasNarrowing (o : CastOutcome) : Bool :=
  hasNote o Note.narrowing

/-- Whether a finding carries a narrowing note. -/
def findingHasNarrowing : Finding → Bool
  | .castClass _ o => outcomeHasNarrowing o
  | .implicitConv o => outcomeHasNarrowing o

/-- Whether a completed report contains at least one narrowing note. -/
def reportHasNarrowing : Except AnalysisError (List Finding) → Bool
  | .ok fs => fs.any findingHasNarrowing
  | .error _ => false

/-- Ownership mode of a handle. -/
inductive OwnMode
  | uniqueMode
  | sharedMode
deriving DecidableEq, Repr

/-- Lifecycle state of an ownership handle. -/
inductive OwnState
  | Valid
  | Moved
  | Destroyed
deriving DecidableEq, Repr

/-- Modelled from the spec: an OwnershipHandle — mode, pointee type, state, and
the reference count of its lineage (meaningful in shared mode). -/
structure OwnershipHandle where
  mode : OwnMode
  pointee : Ty
  state : OwnState
  count : Nat
deriving DecidableEq, Repr

/-- The ownership-relevant operations the tracker observes on a handle. -/
inductive OwnOp
  | moveOp
  | copyOp
  | releaseOp
deriving DecidableEq, Repr

/-- Result of one tracker step: the updated handle, the freshly returned
handle when the operation produces one, and the recorded violation if any. -/
structure OwnStepResult where
  updated : OwnershipHandle
  returned : Option OwnershipHandle
  violation : Option AnalysisError
deriving DecidableEq, Repr

/-- Construction of a fresh Valid unique handle (makeUnique). -/
def makeUnique (t : Ty) : OwnershipHandle :=
  ⟨.uniqueMode, t, .Valid, 1⟩

/-- Construction of a fresh Valid shared handle with count 1 (makeShared). -/
def makeShared (t : Ty) : OwnershipHandle :=
  ⟨.sharedMode, t, .Valid, 1⟩

/-- Modelled from the spec: the OwnershipTracker's step — move transitions
Valid to Moved and returns a fresh Valid handle; copy is permitted only in
shared mode, incrementing the count (copying a unique handle records
`NonCopyableError`); release transitions Valid to Destroyed; any operation on a
Moved handle records `UseAfterMoveError`, releasing a Destroyed handle records
`DoubleReleaseError`, and moving or copying a Destroyed handle records
`UseAfterMoveError`; a violating operation leaves the handle unchanged. -/
def ownStep (h : OwnershipHandle) : OwnOp → OwnStepResult
  | .moveOp =>
    match h.state with
    | .Valid => ⟨{ h with state := .Moved }, some { h with state := .Valid }, none⟩
    | .Moved => ⟨h, none, some .UseAfterMoveError⟩
    | .Destroyed => ⟨h, none, some .UseAfterMoveError⟩
  | .copyOp =>
    match h.state, h.mode with
    | .Valid, .uniqueMode => ⟨h, none, some .NonCopyableError⟩
    | .Valid, .sharedMode =>
      ⟨{ h with count := h.count + 1 }, some ⟨.sharedMode, h.pointee, .Valid, h.count + 1⟩, none⟩
    | .Moved, _ => ⟨h, none, some .UseAfterMoveError⟩
    | .Destroyed, _ => ⟨h, none, some .UseAfterMoveError⟩
  | .releaseOp =>
    match h.state with
    | .Valid => ⟨{ h with state := .Destroyed, count := h.count - 1 }, none, none⟩
    | .Moved => ⟨h, none, some .UseAfterMoveError⟩
    | .Destroyed => ⟨h, none, some .DoubleReleaseError⟩

/-- The registry of the type_casting fixture: `Base` with no bases, `Child`
deriving from `Base`; neither declares a dynamically-dispatched member. -/
def fixtureRegistry : Registry :=
  ⟨[⟨"Base", [], false⟩, ⟨"Child", ["Base"], false⟩]⟩

/-- The declaration sequence of examples/type_casting/main.cpp's `main`,
embedded as the spec's expression-tree input: C-style casts request the
legacy-ambiguous mechanism, `static_cast` the qualified-hierarchy mechanism,
`dynamic_cast` the runtime-checked-hierarchy mechanism, and `reinterpret_cast`
the bit-reinterpretation mechanism. -/
def typeCastingProgram : List Stmt :=
  [ .decl "myInt" (.arith .intTy) (.litInt 10),
    .decl "myFloat" (.arith .intTy) .litFloat,
    .decl "myDouble" (.arith .doubleTy) .litDouble,
    .decl "myChild" (.ptr (.cls "Child")) (.newE (.cls "Child")),
    .decl "castedToInt" (.arith .intTy) (.castE (.arith .intTy) .legacyAmbiguous (.var "myFloat")),
    .decl "castedToInt2" (.arith .intTy) (.castE (.arith .intTy) .legacyAmbiguous (.var "myDouble")),
    .decl "castedToInt3" (.arith .intTy) (.castE (.arith .intTy) .legacyAmbiguous .litFloat),
    .decl "castedToDouble" (.arith .doubleTy) (.castE (.arith .doubleTy) .legacyAmbiguous (.var "myInt")),
    .decl "castedToDouble2" (.arith .doubleTy) (.castE (.arith .doubleTy) .legacyAmbiguous (.var "myFloat")),
    .decl "castedToDouble3" (.arith .doubleTy) (.castE (.arith .doubleTy) .legacyAmbiguous (.litInt 100)),
    .decl "castedToBase" (.ptr (.cls "Base")) (.castE (.ptr (.cls "Base")) .legacyAmbiguous (.var "myChild")),
    .decl "castedToPointer" .voidPtr (.castE .voidPtr .legacyAmbiguous (.litInt 291)),
    .decl "castedToValue" (.cls "Base") (.castE (.cls "Base") .legacyAmbiguous (.var "myChild")),
    .decl "staticCastToBase" (.ptr (.cls "Base")) (.castE (.ptr (.cls "Base")) .qualifiedHierarchy (.var "myChild")),
    .decl "dynamicCastToBase" (.ptr (.cls "Base")) (.castE (.ptr (.cls "Base")) .runtimeCheckedHierarchy (.var "myChild")),
    .decl "reinterpretCastToBase" (.ptr (.cls "Base")) (.castE (.ptr (.cls "Base")) .bitReinterpretation (.var "myChild")) ]

/-- The analysis report of the type_casting fixture. -/
def typeCastingReport : Except AnalysisError (List Finding) :=
  analyzeStmtList fixtureRegistry typeCastingProgram []

/-- The cyclic declaration set of the spec's cyclic-hierarchy property: C lists
B as base, B lists A as base, A lists C as base. -/
def cyclicDecls : List ClassDecl :=
  [⟨"A", ["C"], false⟩, ⟨"B", ["A"], false⟩, ⟨"C", ["B"], false⟩]

/-- The `fixed-arity-tuple<int, string>` instantiation of the spec's tuple
property. -/
def tupleIntString : Ty :=
  Ty.tmpl "fixed-arity-tuple" [Ty.arith .intTy, Ty.cls "string"]

/-- A registry with a polymorphic base `A` and derived `B`, used to exercise
the hierarchy cast rules at a concrete input. -/
def polyRegistry : Registry :=
  ⟨[⟨"A", [], true⟩, ⟨"B", ["A"], false⟩, ⟨"X", [], false⟩]⟩

/-- C1: for every pair of arithmetic types (a, b), the implicit-numeric
mechanism classifies the cast as legal, and the classification carries a
narrowing note if and only if the target's precision is less than the source's
precision or the target is an integer type while the source is
floating-point. -/
theorem implicit_numeric_legal_and_narrowing_iff (a b : ArithTy) :
    isLegal (classifyImplicitNumeric (Ty.arith a) (Ty.arith b)) = true ∧
    (hasNote (classifyImplicitNumeric (Ty.arith a) (Ty.arith b)) Note.narrowing = true ↔
      precision b < precision a ∨ (isFloating b = false ∧ isFloating a = true)) := by
  cases a <;> cases b <;> decide

/-- C2: for registered class types with `a` a registered transitive base of
`b`, the qualified-hierarchy cast is legal in both pointer directions with no
notes (so the downcast carries no runtime check), while the runtime-checked
cast from base pointer to derived pointer is legal exactly when the source
class `a` is polymorphic, and fails `NotPolymorphicError` otherwise. -/
theorem hierarchy_cast_up_down_and_runtime (reg : Registry) (a b : String)
    (ha : registeredClass reg a = true) (hb : registeredClass reg b = true)
    (h : isBaseOf reg a b = true) :
    classifyQualifiedHierarchy reg (Ty.ptr (Ty.cls b)) (Ty.ptr (Ty.cls a)) = .legal [] ∧
    classifyQualifiedHierarchy reg (Ty.ptr (Ty.cls a)) (Ty.ptr (Ty.cls b)) = .legal [] ∧
    (isPolymorphic reg a = true →
      classifyRuntimeChecked reg (Ty.ptr (Ty.cls a)) (Ty.ptr (Ty.cls b)) =
        .legal [Note.runtimeDependent]) ∧
    (isPolymorphic reg a = false →
      classifyRuntimeChecked reg (Ty.ptr (Ty.cls a)) (Ty.ptr (Ty.cls b)) =
        .illegal .NotPolymorphicError) := by
  refine ⟨?_, ?_, ?_, ?_⟩
  · simp [classifyQualifiedHierarchy, isArith, pointeeClass, h]
  · simp [classifyQualifiedHierarchy, isArith, pointeeClass, h]
  · intro hp
    simp [classifyRuntimeChecked, referencedClass, h, hp]
  · intro hp
    simp [classifyRuntimeChecked, referencedClass, h, hp]

/-- Witness for C2: in the concrete registry with polymorphic base `A` and
derived `B`, the hypotheses hold and the runtime-checked downcast is legal. -/
theorem hierarchy_cast_up_down_and_runtime_witness :
    isBaseOf polyRegistry "A" "B" = true ∧
    classifyRuntimeChecked polyRegistry (Ty.ptr (Ty.cls "A")) (Ty.ptr (Ty.cls "B")) =
      .legal [Note.runtimeDependent] :=
  ⟨by decide,
    (hierarchy_cast_up_down_and_runtime polyRegistry "A" "B" (by decide) (by decide)
      (by decide)).2.2.1 (by decide)⟩

/-- C3: for registered class types `x` and `y` with neither a transitive base
of the other, casts between pointer-to-`x` and pointer-to-`y` fail
`UnrelatedTypesError` under both the qualified-hierarchy and the
runtime-checked-hierarchy mechanisms, in both directions. -/
theorem unrelated_pointer_casts_fail (reg : Registry) (x y : String)
    (hx : registeredClass reg x = true) (hy : registeredClass reg y = true)
    (h1 : isBaseOf reg x y = false) (h2 : isBaseOf reg y x = false) :
    classifyQualifiedHierarchy reg (Ty.ptr (Ty.cls x)) (Ty.ptr (Ty.cls y)) =
      .illegal .UnrelatedTypesError ∧
    classifyQualifiedHierarchy reg (Ty.ptr (Ty.cls y)) (Ty.ptr (Ty.cls x)) =
      .illegal .UnrelatedTypesError ∧
    classifyRuntimeChecked reg (Ty.ptr (Ty.cls x)) (Ty.ptr (Ty.cls y)) =
      .illegal .UnrelatedTypesError ∧
    classifyRuntimeChecked reg (Ty.ptr (Ty.cls y)) (Ty.ptr (Ty.cls x)) =
      .illegal .UnrelatedTypesError := by
  refine ⟨?_, ?_, ?_, ?_⟩
  · simp [classifyQualifiedHierarchy, isArith, pointeeClass, h1, h2]
  · simp [classifyQualifiedHierarchy, isArith, pointeeClass, h1, h2]
  · simp [classifyRuntimeChecked, referencedClass, h1, h2]
  · simp [classifyRuntimeChecked, referencedClass, h1, h2]

/-- Witness for C3: `X` and `A` are unrelated registered classes in the
concrete registry, and their pointer cast fails under both mechanisms. -/
theorem unrelated_pointer_casts_fail_witness :
    classifyQualifiedHierarchy polyRegistry (Ty.ptr (Ty.cls "X")) (Ty.ptr (Ty.cls "A")) =
      .illegal .UnrelatedTypesError ∧
    classifyRuntimeChecked polyRegistry (Ty.ptr (Ty.cls "X")) (Ty.ptr (Ty.cls "A")) =
      .illegal .UnrelatedTypesError :=
  ⟨(unrelated_pointer_casts_fail polyRegistry "X" "A" (by decide) (by decide)
      (by decide) (by decide)).1,
   (unrelated_pointer_casts_fail polyRegistry "X" "A" (by decide) (by decide)
      (by decide) (by decide)).2.2.1⟩

/-- C4: for every source type, target type and registry, the legacy-ambiguous
classification equals the qualified-hierarchy classification whenever that
succeeds, and otherwise equals the bit-reinterpretation classification with an
added ambiguity note; the two outcomes are mutually exclusive for any one
cast. -/
theorem legacy_ambiguous_exclusive_dispatch (reg : Registry) (s t : Ty) :
    (isLegal (classifyQualifiedHierarchy reg s t) = true →
      classifyLegacyAmbiguous reg s t = classifyQualifiedHierarchy reg s t) ∧
    (isLegal (classifyQualifiedHierarchy reg s t) = false →
      classifyLegacyAmbiguous reg s t = addAmbiguity (classifyBitReinterpretation s t)) ∧
    ¬(isLegal (classifyQualifiedHierarchy reg s t) = true ∧
      isLegal (classifyQualifiedHierarchy reg s t) = false) := by
  cases hq : classifyQualifiedHierarchy reg s t with
  | legal ns =>
    refine ⟨fun _ => ?_, fun hfalse => ?_, fun hcon => ?_⟩
    · simp [classifyLegacyAmbiguous, hq]
    · simp [isLegal] at hfalse
    · simp [isLegal] at hcon
  | illegal e =>
    refine ⟨fun htrue => ?_, fun _ => ?_, fun hcon => ?_⟩
    · simp [isLegal] at htrue
    · cases hb : classifyBitReinterpretation s t with
      | legal ns => simp [classifyLegacyAmbiguous, hq, hb, addAmbiguity]
      | illegal e2 => simp [classifyLegacyAmbiguous, hq, hb, addAmbiguity]
    · simp [isLegal] at hcon

/-- Witness for C4: the fixture's int-to-opaque-pointer cast fails the
qualified-hierarchy mechanism, so its legacy classification is the
bit-reinterpretation one with an added ambiguity note. -/
theorem legacy_ambiguous_exclusive_dispatch_witness :
    classifyLegacyAmbiguous fixtureRegistry (Ty.arith .intTy) Ty.voidPtr =
      addAmbiguity (classifyBitReinterpretation (Ty.arith .intTy) Ty.voidPtr) :=
  (legacy_ambiguous_exclusive_dispatch fixtureRegistry (Ty.arith .intTy) Ty.voidPtr).2.1
    (by decide)

/-- C5: the resolved static type of a cast expression is the requested target
type, whatever the classifier returns for it; the classification outcome is
recorded in the report and type propagation continues. -/
theorem cast_resolves_to_target_type (reg : Registry) (sc : Scope) (e : Expr)
    (target : Ty) (mech : Mechanism) (s : Ty) (fs : List Finding)
    (h : resolveExpr reg sc e = .ok (s, fs)) :
    resolveExpr reg sc (Expr.castE target mech e) =
      .ok (target, fs ++ [Finding.castClass mech (classify reg s target mech)]) := by
  simp [resolveExpr, h]

/-- Witness for C5: the fixture's dynamic_cast of a non-polymorphic child
pointer is classified illegal, yet the cast expression resolves to the
requested target type `Base*` with the illegal classification recorded. -/
theorem cast_resolves_to_target_type_witness :
    resolveExpr fixtureRegistry [("myChild", Ty.ptr (Ty.cls "Child"))]
      (Expr.castE (Ty.ptr (Ty.cls "Base")) .runtimeCheckedHierarchy (Expr.var "myChild")) =
      .ok (Ty.ptr (Ty.cls "Base"),
        [Finding.castClass .runtimeCheckedHierarchy
          (classify fixtureRegistry (Ty.ptr (Ty.cls "Child")) (Ty.ptr (Ty.cls "Base"))
            .runtimeCheckedHierarchy)]) :=
  cast_resolves_to_target_type fixtureRegistry [("myChild", Ty.ptr (Ty.cls "Child"))]
    (Expr.var "myChild") (Ty.ptr (Ty.cls "Base")) .runtimeCheckedHierarchy
    (Ty.ptr (Ty.cls "Child")) [] (by rfl)

/-- C6: registering the cyclic hierarchy in which C lists B as base, B lists A
as base, and A lists C as base fails `CyclicHierarchyError`, and every
`isBaseOf` query routed through that registry construction propagates the error
instead of succeeding. -/
theorem cyclic_hierarchy_registration_fails :
    buildRegistry cyclicDecls = .error .CyclicHierarchyError ∧
    ∀ a b : String,
      queryIsBaseOf (buildRegistry cyclicDecls) a b = .error .CyclicHierarchyError := by
  have h : buildRegistry cyclicDecls = .error .CyclicHierarchyError := by rfl
  exact ⟨h, fun a b => by rw [h]; rfl⟩

/-- C7: every handle transition the ownership tracker performs is Valid to
Moved (move), Valid to Destroyed (release), or Valid to Valid with incremented
count (copy, shared mode); an operation on a Moved or Destroyed handle leaves
it unchanged and records a `UseAfterMoveError` or `DoubleReleaseError`
violation, and copying a unique-mode handle records `NonCopyableError`. -/
theorem ownership_step_transitions (h : OwnershipHandle) (op : OwnOp) :
    (h.state ≠ OwnState.Valid →
      (ownStep h op).updated = h ∧
      ((ownStep h op).violation = some .UseAfterMoveError ∨
        (ownStep h op).violation = some .DoubleReleaseError)) ∧
    (h.state = .Valid → op = .moveOp →
      (ownStep h op).updated.state = .Moved ∧ (ownStep h op).violation = none) ∧
    (h.state = .Valid → op = .releaseOp →
      (ownStep h op).updated.state = .Destroyed ∧ (ownStep h op).violation = none) ∧
    (h.state = .Valid → op = .copyOp → h.mode = .sharedMode →
      (ownStep h op).updated.state = .Valid ∧
      (ownStep h op).updated.count = h.count + 1 ∧ (ownStep h op).violation = none) ∧
    (h.state = .Valid → op = .copyOp → h.mode = .uniqueMode →
      (ownStep h op).updated = h ∧ (ownStep h op).violation = some .NonCopyableError) := by
  obtain ⟨m, p, s, c⟩ := h
  cases m <;> cases s <;> cases op <;> simp [ownStep]

/-- Witness for C7: copying a freshly constructed unique handle records the
`NonCopyableError` violation. -/
theorem ownership_step_transitions_witness :
    (ownStep (makeUnique (Ty.arith .intTy)) OwnOp.copyOp).violation =
      some AnalysisError.NonCopyableError :=
  ((ownership_step_transitions (makeUnique (Ty.arith .intTy)) OwnOp.copyOp).2.2.2.2
    rfl rfl rfl).2

/-- C8: positional access against a fixed-arity tuple of arity n succeeds at
resolution time for every index below n and fails `IndexOutOfRangeError` for
every index at or above n; in particular `fixed-arity-tuple<int, string>`
access succeeds at indices 0 and 1 and fails at index 2. -/
theorem tuple_positional_access_bounds (args : List Ty) (i : Nat) :
    (∀ hlt : i < args.length,
      resolvePositionalAccess (Ty.tmpl "fixed-arity-tuple" args) i =
        .ok (args.get ⟨i, hlt⟩)) ∧
    (args.length ≤ i →
      resolvePositionalAccess (Ty.tmpl "fixed-arity-tuple" args) i =
        .error .IndexOutOfRangeError) ∧
    resolvePositionalAccess tupleIntString 0 = .ok (Ty.arith .intTy) ∧
    resolvePositionalAccess tupleIntString 1 = .ok (Ty.cls "string") ∧
    resolvePositionalAccess tupleIntString 2 = .error .IndexOutOfRangeError := by
  refine ⟨?_, ?_, by rfl, by rfl, by rfl⟩
  · intro hlt
    simp [resolvePositionalAccess, List.getElem?_eq_getElem hlt]
  · intro hge
    simp [resolvePositionalAccess, List.getElem?_eq_none_iff.mpr hge]

/-- Witness for C8: applying the bounds theorem at the concrete two-element
tuple and the out-of-range index 2. -/
theorem tuple_positional_access_bounds_witness :
    resolvePositionalAccess (Ty.tmpl "fixed-arity-tuple" [Ty.arith .intTy, Ty.cls "string"]) 2 =
      .error AnalysisError.IndexOutOfRangeError :=
  (tuple_positional_access_bounds [Ty.arith .intTy, Ty.cls "string"] 2).2.1 (by decide)

/-- Facts extracted from a successful template instantiation: the resulting
Type is the template name applied to the argument list, the combination is
registered in the resulting table, and the name and arity checks passed. -/
theorem instantiate_ok_facts {inst : TemplateInstantiator} {nm : String} {args : List Ty}
    {t : Ty} {i1 : TemplateInstantiator}
    (h : instantiate inst nm args = .ok (t, i1)) :
    t = Ty.tmpl nm args ∧ (nm, args) ∈ i1.table ∧
    knownTemplate nm = true ∧ arityOk nm args.length = true := by
  unfold instantiate at h
  split at h
  · cases h
  next hk =>
    split at h
    · cases h
    next ha =>
      rw [Bool.not_eq_false] at hk ha
      split at h
      next hm =>
        simp only [Except.ok.injEq, Prod.mk.injEq] at h
        exact ⟨h.1.symm, h.2 ▸ hm, hk, ha⟩
      next hm =>
        simp only [Except.ok.injEq, Prod.mk.injEq] at h
        refine ⟨h.1.symm, ?_, hk, ha⟩
        rw [← h.2]
        simp

/-- C9: template instantiation is memoized by argument list — repeating an
instantiation with identical arguments returns the same Type and leaves the
instantiator unchanged, while instantiations with distinct argument lists yield
distinct Types; in particular instantiating `sequence<int>` twice registers one
Type, not two. -/
theorem instantiate_memoized_and_distinct (inst : TemplateInstantiator) (nm : String)
    (args args2 : List Ty) :
    (∀ t i1, instantiate inst nm args = .ok (t, i1) →
      instantiate i1 nm args = .ok (t, i1)) ∧
    (args ≠ args2 → ∀ t1 i1 t2 i2, instantiate inst nm args = .ok (t1, i1) →
      instantiate inst nm args2 = .ok (t2, i2) → t1 ≠ t2) ∧
    instantiate ⟨[]⟩ "sequence" [Ty.arith .intTy] =
      .ok (Ty.tmpl "sequence" [Ty.arith .intTy], ⟨[("sequence", [Ty.arith .intTy])]⟩) ∧
    instantiate ⟨[("sequence", [Ty.arith .intTy])]⟩ "sequence" [Ty.arith .intTy] =
      .ok (Ty.tmpl "sequence" [Ty.arith .intTy], ⟨[("sequence", [Ty.arith .intTy])]⟩) := by
  refine ⟨?_, ?_, by rfl, by rfl⟩
  · intro t i1 h
    obtain ⟨ht, hm, hk, ha⟩ := instantiate_ok_facts h
    unfold instantiate
    rw [hk, ha]
    simp [hm, ht]
  · intro hne t1 i1 t2 i2 h1 h2
    obtain ⟨ht1, -, -, -⟩ := instantiate_ok_facts h1
    obtain ⟨ht2, -, -, -⟩ := instantiate_ok_facts h2
    rw [ht1, ht2]
    simp [hne]

/-- Witness for C9: repeating the `sequence<int>` instantiation after its first
registration returns the already-registered Type and the unchanged table. -/
theorem instantiate_memoized_and_distinct_witness :
    instantiate ⟨[("sequence", [Ty.arith .intTy])]⟩ "sequence" [Ty.arith .intTy] =
      .ok (Ty.tmpl "sequence" [Ty.arith .intTy], ⟨[("sequence", [Ty.arith .intTy])]⟩) :=
  (instantiate_memoized_and_distinct ⟨[]⟩ "sequence" [Ty.arith .intTy] []).1
    (Ty.tmpl "sequence" [Ty.arith .intTy]) ⟨[("sequence", [Ty.arith .intTy])]⟩ (by rfl)

/-- C10: analyzing the type_casting fixture aborts with no fatal structural
error, its report contains at least one narrowing note (from the
floating-point-to-integer initialization and casts), and the non-strict
invocation exits with code 1. -/
theorem type_casting_fixture_analysis :
    isFatal typeCastingReport = false ∧
    reportHasNarrowing typeCastingReport = true ∧
    exitCode false typeCastingReport = 1 :=
  ⟨by rfl, by rfl, by rfl⟩
